import Mathlib

/-!
Shallow embedding of the live-reload orchestration core of the dinodeck
runtime (src/src/Dinodeck.cpp, src/src/Settings.h), together with proofs
about its settings-reload cascade.

External collaborators (the Lua settings reader, the filesystem, the
manifest asset store's own reload, and the Game state controller) are not
part of src/; they are modelled as oracle functions in `Env` or, where the
spec pins their behaviour, as definitions marked `Modelled from the spec:`.
-/

namespace Dinodeck

/-- The settings record, from src/src/Settings.h. -/
structure Settings where
  name : String
  width : Int
  height : Int
  displayWidth : Int
  displayHeight : Int
  manifestPath : String
  mainScript : String
  onUpdate : String
  webserver : Bool
  orientation : String
deriving Repr, DecidableEq

/-- The default-constructed settings, from the `Settings()` constructor in
src/src/Settings.h. -/
def Settings.init : Settings :=
  { name := "CGGameLoop"
    width := 640
    height := 360
    displayWidth := 640
    displayHeight := 360
    manifestPath := "manifest.lua"
    mainScript := "main.lua"
    onUpdate := "update()"
    webserver := false
    orientation := "portrait" }

/-- Modelled from the spec: the parsed settings document exposed by the
scripting engine (LuaState is not under src/). The spec describes it as an
opaque value-reader with typed getters over a parsed key/value document. -/
structure LuaDoc where
  strings : List (String × String)
  ints : List (String × Int)
  bools : List (String × Bool)
deriving Repr

/-- Modelled from the spec: `GetString(key, default)` returns the document's
value for the key or the supplied default. -/
def LuaDoc.GetString (d : LuaDoc) (key dflt : String) : String :=
  (d.strings.lookup key).getD dflt

/-- Modelled from the spec: `GetInt(key, default)`. -/
def LuaDoc.GetInt (d : LuaDoc) (key : String) (dflt : Int) : Int :=
  (d.ints.lookup key).getD dflt

/-- Modelled from the spec: `GetBoolean(key, default)`. -/
def LuaDoc.GetBoolean (d : LuaDoc) (key : String) (dflt : Bool) : Bool :=
  (d.bools.lookup key).getD dflt

/-- Modelled from the spec: the application state machine kept by the Game
object (Game.cpp is not under src/): `{NotStarted, Running, Broken}`. -/
inductive RunState where
  | NotStarted
  | Running
  | Broken
deriving Repr, DecidableEq

/-- Modelled from the spec: the Game state controller's observable state —
run state, `reloadCount` and the `isReady` flag. -/
structure Game where
  runState : RunState
  reloadCount : Nat
  isReady : Bool
deriving Repr, DecidableEq

/-- Modelled from the spec: `Game::Break` suspends the application —
transition to `Broken`, nothing torn down. -/
def Game.Break (g : Game) : Game :=
  { g with runState := RunState.Broken }

/-- Modelled from the spec: `Game::Reset` re-initializes the application
and sets `isReady = true`; afterwards the application is running. -/
def Game.Reset (g : Game) : Game :=
  { g with runState := RunState.Running, isReady := true }

/-- Modelled from the spec: `Game::ResetReloadCount` resets `reloadCount`
to zero at the start of each explicit reload pass. -/
def Game.ResetReloadCount (g : Game) : Game :=
  { g with reloadCount := 0 }

/-- Modelled from the spec: `Game::IsRunning`. -/
def Game.IsRunning (g : Game) : Bool :=
  g.runState = RunState.Running

/-- Modelled from the spec: `Game::IsReady`. -/
def Game.IsReady (g : Game) : Bool :=
  g.isReady

/-- Modelled from the spec: `Game::GetReloadCount`. -/
def Game.GetReloadCount (g : Game) : Nat :=
  g.reloadCount

/-- The settings asset (`mSettingsFile`): a path-addressed resource with a
stored last-modified timestamp, as used by `Dinodeck::ForceReload`. -/
structure Asset where
  path : String
  lastModified : Int
deriving Repr, DecidableEq

/-- The environment: oracles for the external collaborators.
`fileExists` and `modTime` stand for DDFile/the filesystem; `parse` stands
for `LuaState::DoFile` (`none` = parse failure, `some doc` = success);
`storeReload path store` and `storeReloadCur store` stand for
`ManifestAssetStore::Reload(path)` / `Reload()` (ManifestAssetStore.cpp is
not under src/), each returning success, the resulting tracked assets, and
the number of script reloads the cascade performed (which the Game's script
owner adds to `reloadCount`). -/
structure Env where
  fileExists : String → Bool
  parse : String → Option LuaDoc
  storeReload : String → List String → Bool × List String × Nat
  storeReloadCur : List String → Bool × List String × Nat
  modTime : String → Int

/-- Modelled from the spec: `AssetStore::IsOutOfDate` (AssetStore.cpp is
not under src/) compares the on-disk modification time strictly
greater-than the resource's stored `lastModified`. -/
def IsOutOfDate (env : Env) (a : Asset) : Bool :=
  env.modTime a.path > a.lastModified

/-- The display-dimension clamp of `Dinodeck::ReadInSettingsFile`
(src/src/Dinodeck.cpp lines 111-127): a display dimension smaller than the
corresponding surface dimension is raised to match it. -/
def clampDisplay (s : Settings) : Settings :=
  let s1 := if s.width > s.displayWidth then { s with displayWidth := s.width } else s
  if s1.height > s1.displayHeight then { s1 with displayHeight := s1.height } else s1

/-- Result of `Dinodeck::ReadInSettingsFile`: the boolean outcome plus the
fields it may mutate — `mSettings`, the manifest asset store's tracked
assets, and `mName` (via `SetName`). -/
structure ReadResult where
  success : Bool
  settings : Settings
  store : List String
  name : String
deriving Repr, DecidableEq

/-- `Dinodeck::ReadInSettingsFile` (src/src/Dinodeck.cpp lines 75-137).
If the settings file is missing, the asset store is cleared and the call
fails. If the Lua parse fails, nothing is touched and the call fails.
Otherwise every settings field is (re)assigned from the document with the
source's defaults — note `display_width`/`display_height` default to the
*newly read* width/height, and `manifest` defaults to the empty string —
then the display dimensions are clamped and `SetName` is applied. -/
def ReadInSettingsFile (env : Env) (s : Settings) (store : List String)
    (mName : String) (path : String) : ReadResult :=
  if env.fileExists path then
    match env.parse path with
    | none =>
      { success := false, settings := s, store := store, name := mName }
    | some doc =>
      let name := doc.GetString "name" s.name
      let width := doc.GetInt "width" s.width
      let height := doc.GetInt "height" s.height
      let displayWidth := doc.GetInt "display_width" width
      let displayHeight := doc.GetInt "display_height" height
      let mainScript := doc.GetString "main_script" "main.lua"
      let onUpdate := doc.GetString "on_update" "update()"
      let manifestPath := doc.GetString "manifest" ""
      let webserver := doc.GetBoolean "webserver" false
      let orientation := doc.GetString "orientation" "portrait"
      let s' := clampDisplay
        { name := name
          width := width
          height := height
          displayWidth := displayWidth
          displayHeight := displayHeight
          manifestPath := manifestPath
          mainScript := mainScript
          onUpdate := onUpdate
          webserver := webserver
          orientation := orientation }
      { success := true, settings := s', store := store, name := s'.name }
  else
    { success := false, settings := s, store := [], name := mName }

/-- The mutable state of the `Dinodeck` orchestrator that the reload code
touches: `mSettings`, the manifest asset store's tracked assets, `mName`,
the Game state controller, and whether `mScreenChangeListener` is set. -/
structure DState where
  settings : Settings
  store : List String
  name : String
  game : Game
  hasScreenChangeListener : Bool
deriving Repr, DecidableEq

/-- Result of `Dinodeck::OnAssetReload`: the boolean outcome, the state
after the call, and the list of `IScreenChangeListener::OnChange(w, h)`
invocations made during the call (in order). -/
structure ReloadResult where
  success : Bool
  state : DState
  onChangeCalls : List (Int × Int)
deriving Repr, DecidableEq

/-- `Dinodeck::OnAssetReload` (src/src/Dinodeck.cpp lines 139-174).
Reads the settings file; on failure breaks the game and fails. Then, if
the manifest path named by the (new) settings does not exist, clears the
asset store, breaks the game and fails. Otherwise fires the screen-change
listener (when registered), resets the render window (rendering-only, and
it reassigns `mSettings.width/height` to their own values — a no-op on
this state), and reloads the manifest asset store, breaking the game and
failing if that reload fails. Script reloads performed by the store's
cascade land in the Game's `reloadCount`. -/
def OnAssetReload (env : Env) (st : DState) (path : String) : ReloadResult :=
  let r := ReadInSettingsFile env st.settings st.store st.name path
  if r.success then
    let st1 : DState := { st with settings := r.settings, store := r.store, name := r.name }
    if env.fileExists st1.settings.manifestPath then
      let calls :=
        if st1.hasScreenChangeListener then
          [(st1.settings.width, st1.settings.height)]
        else []
      let res := env.storeReload st1.settings.manifestPath st1.store
      let ok := res.1
      let newStore := res.2.1
      let inc := res.2.2
      let g1 := { st1.game with reloadCount := st1.game.reloadCount + inc }
      if ok then
        { success := true
          state := { st1 with store := newStore, game := g1 }
          onChangeCalls := calls }
      else
        { success := false
          state := { st1 with store := newStore, game := g1.Break }
          onChangeCalls := calls }
    else
      { success := false
        state := { st1 with store := [], game := st1.game.Break }
        onChangeCalls := [] }
  else
    { success := false
      state :=
        { st with
          settings := r.settings
          store := r.store
          name := r.name
          game := st.game.Break }
      onChangeCalls := [] }

/-- The full orchestrator state seen by `Dinodeck::ForceReload`: the
`DState` plus the settings asset `mSettingsFile`. -/
structure FRState where
  d : DState
  settingsFile : Asset
deriving Repr, DecidableEq

/-- Result of `Dinodeck::ForceReload`: outcome, final state, whether
`Game::Reset` was called, the Game state at the post-cascade reset check
(just before the `!resetSuccess` test), and the screen-change calls made. -/
structure FRResult where
  success : Bool
  st : FRState
  resetCalled : Bool
  gameAtCheck : Game
  onChangeCalls : List (Int × Int)
deriving Repr, DecidableEq

/-- The tail of `Dinodeck::ForceReload` (src/src/Dinodeck.cpp lines
210-228): on cascade failure break the game and fail; on success call
`Game::Reset` when `GetReloadCount() > 0 || !IsRunning()`, or else when
`!IsReady()`, and succeed. -/
def finishReload (st : FRState) (resetSuccess : Bool)
    (calls : List (Int × Int)) : FRResult :=
  let g := st.d.game
  if resetSuccess then
    if g.GetReloadCount > 0 || !g.IsRunning then
      { success := true, st := { st with d := { st.d with game := g.Reset } }
        resetCalled := true, gameAtCheck := g, onChangeCalls := calls }
    else if !g.IsReady then
      { success := true, st := { st with d := { st.d with game := g.Reset } }
        resetCalled := true, gameAtCheck := g, onChangeCalls := calls }
    else
      { success := true, st := st
        resetCalled := false, gameAtCheck := g, onChangeCalls := calls }
  else
    { success := false, st := { st with d := { st.d with game := g.Break } }
      resetCalled := false, gameAtCheck := g, onChangeCalls := calls }

/-- `Dinodeck::ForceReload` (src/src/Dinodeck.cpp lines 181-229).
Resets the Game's reload count, then: if the settings asset is out of
date, reloads it via `OnAssetReload` (`Asset::OnReload` dispatches to the
reloader passed at construction, which is the `Dinodeck` itself) and, only
when that succeeds, stores the on-disk timestamp via `SetTimeLastModified`
(the framebuffer reset is rendering-only); otherwise reloads the manifest
asset store against its retained path. The tail is `finishReload`. -/
def ForceReload (env : Env) (st : FRState) : FRResult :=
  let d0 : DState := { st.d with game := st.d.game.ResetReloadCount }
  if IsOutOfDate env st.settingsFile then
    let r := OnAssetReload env d0 st.settingsFile.path
    if r.success then
      let sf := { st.settingsFile with
                  lastModified := env.modTime st.settingsFile.path }
      finishReload { d := r.state, settingsFile := sf } true r.onChangeCalls
    else
      finishReload { d := r.state, settingsFile := st.settingsFile } false
        r.onChangeCalls
  else
    let res := env.storeReloadCur d0.store
    let d1 : DState :=
      { d0 with
        store := res.2.1
        game := { d0.game with reloadCount := d0.game.reloadCount + res.2.2 } }
    finishReload { d := d1, settingsFile := st.settingsFile } res.1 []

/-- The asset owners wired up by the `Dinodeck` constructor
(src/src/Dinodeck.cpp lines 23-45): the Game, the TextureManager, the
manifest asset store itself, and the single DDAudio instance. -/
inductive Owner where
  | game
  | textureManager
  | manifestAssetStore
  | ddAudio
deriving Repr, DecidableEq

/-- Optionality of a registered asset category
(`ManifestAssetStore::Optional` versus the default). The default value of
the third `RegisterAssetOwner` parameter is modelled from the spec
(ManifestAssetStore.h is not under src/): a category not registered as
`Optional` is required. -/
inductive Optionality where
  | Required
  | Optional
deriving Repr, DecidableEq

/-- Modelled from the spec: `ManifestAssetStore::RegisterAssetOwner`
(ManifestAssetStore.cpp is not under src/) — registration fails if the
category is already registered, otherwise appends the record. -/
def RegisterAssetOwner (reg : List (String × Owner × Optionality))
    (category : String) (owner : Owner) (opt : Optionality) :
    Option (List (String × Owner × Optionality)) :=
  if (reg.lookup category).isSome then none
  else some (reg ++ [(category, owner, opt)])

/-- The sequence of `RegisterAssetOwner` calls made by the `Dinodeck`
constructor (src/src/Dinodeck.cpp lines 37-44): "scripts" with the Game
(default optionality, i.e. required), then "textures", "fonts", "sounds"
and "soundstreams" as Optional. -/
def constructorRegistry : Option (List (String × Owner × Optionality)) :=
  (RegisterAssetOwner [] "scripts" Owner.game Optionality.Required).bind fun r1 =>
  (RegisterAssetOwner r1 "textures" Owner.textureManager Optionality.Optional).bind fun r2 =>
  (RegisterAssetOwner r2 "fonts" Owner.manifestAssetStore Optionality.Optional).bind fun r3 =>
  (RegisterAssetOwner r3 "sounds" Owner.ddAudio Optionality.Optional).bind fun r4 =>
  RegisterAssetOwner r4 "soundstreams" Owner.ddAudio Optionality.Optional

/-! ### Concrete inputs used by witnesses and counterexamples -/

/-- A settings document with no keys at all. -/
def docEmpty : LuaDoc := { strings := [], ints := [], bools := [] }

/-- A settings document setting only `width=800` and `height=480`. -/
def docWH : LuaDoc :=
  { strings := [], ints := [("width", 800), ("height", 480)], bools := [] }

/-- Every file is missing. -/
def envMissing : Env :=
  { fileExists := fun _ => false
    parse := fun _ => none
    storeReload := fun _ s => (true, s, 0)
    storeReloadCur := fun s => (true, s, 0)
    modTime := fun _ => 100 }

/-- Files exist but the settings document fails to parse. -/
def envParseFail : Env :=
  { fileExists := fun _ => true
    parse := fun _ => none
    storeReload := fun _ s => (true, s, 0)
    storeReloadCur := fun s => (true, s, 0)
    modTime := fun _ => 100 }

/-- Files exist, the settings document is empty, and the manifest asset
store's reload fails. -/
def envStoreFail : Env :=
  { fileExists := fun _ => true
    parse := fun _ => some docEmpty
    storeReload := fun _ s => (false, s, 0)
    storeReloadCur := fun s => (true, s, 0)
    modTime := fun _ => 100 }

/-- Files are unchanged on disk (`modTime` 0) and every reload succeeds. -/
def envQuiet : Env :=
  { fileExists := fun _ => true
    parse := fun _ => some docEmpty
    storeReload := fun _ s => (true, s, 0)
    storeReloadCur := fun s => (true, s, 0)
    modTime := fun _ => 0 }

/-- Every file except the empty path exists; the settings document is
empty (in particular it omits `manifest`); reloads succeed. -/
def envNoEmptyPath : Env :=
  { fileExists := fun p => !(p == "")
    parse := fun _ => some docEmpty
    storeReload := fun _ s => (true, s, 0)
    storeReloadCur := fun s => (true, s, 0)
    modTime := fun _ => 100 }

/-- Files exist and the settings document sets only `width`/`height`. -/
def envWH : Env :=
  { fileExists := fun _ => true
    parse := fun _ => some docWH
    storeReload := fun _ s => (true, s, 0)
    storeReloadCur := fun s => (true, s, 0)
    modTime := fun _ => 100 }

/-- A game that ran successfully once (`isReady`) and then broke. -/
def gameBrokenReady : Game :=
  { runState := RunState.Broken, reloadCount := 0, isReady := true }

/-- An orchestrator state with a registered screen-change listener and the
broken-but-ready game. -/
def dInit : DState :=
  { settings := Settings.init
    store := ["a.png"]
    name := "CGGameLoop"
    game := gameBrokenReady
    hasScreenChangeListener := true }

/-- The `ForceReload` state: `dInit` plus a settings asset loaded at
time 0. -/
def frInit : FRState :=
  { d := dInit, settingsFile := { path := "settings.lua", lastModified := 0 } }

/-! ### Helper lemmas -/

theorem clampDisplay_width (s : Settings) : (clampDisplay s).width = s.width := by
  cases s
  simp only [clampDisplay]
  split_ifs <;> rfl

theorem clampDisplay_height (s : Settings) : (clampDisplay s).height = s.height := by
  cases s
  simp only [clampDisplay]
  split_ifs <;> rfl

theorem clampDisplay_manifestPath (s : Settings) :
    (clampDisplay s).manifestPath = s.manifestPath := by
  cases s
  simp only [clampDisplay]
  split_ifs <;> rfl

theorem clampDisplay_bounds (s : Settings) :
    (clampDisplay s).width ≤ (clampDisplay s).displayWidth ∧
    (clampDisplay s).height ≤ (clampDisplay s).displayHeight := by
  cases s
  simp only [clampDisplay]
  split_ifs <;> constructor <;> simp_all

theorem finishReload_success (st : FRState) (b : Bool) (c : List (Int × Int)) :
    (finishReload st b c).success = b := by
  unfold finishReload
  dsimp only
  split_ifs <;> simp_all

theorem finishReload_gameAtCheck (st : FRState) (b : Bool) (c : List (Int × Int)) :
    (finishReload st b c).gameAtCheck = st.d.game := by
  unfold finishReload
  dsimp only
  split_ifs <;> rfl

theorem finishReload_settingsFile (st : FRState) (b : Bool) (c : List (Int × Int)) :
    (finishReload st b c).st.settingsFile = st.settingsFile := by
  unfold finishReload
  dsimp only
  split_ifs <;> rfl

theorem finishReload_resetCalled (st : FRState) (b : Bool) (c : List (Int × Int)) :
    (finishReload st b c).resetCalled =
      (b && (decide (0 < st.d.game.GetReloadCount) || !st.d.game.IsRunning ||
             !st.d.game.IsReady)) := by
  unfold finishReload
  dsimp only
  split_ifs <;> simp_all

theorem ForceReload_shape (env : Env) (st : FRState) :
    ∃ stX b c, ForceReload env st = finishReload stX b c := by
  unfold ForceReload
  dsimp only
  split
  · split
    · exact ⟨_, _, _, rfl⟩
    · exact ⟨_, _, _, rfl⟩
  · exact ⟨_, _, _, rfl⟩

/-! ### Claim theorems -/

/-- C1: For every reload check in which the settings file does not exist
on disk, or in which the settings file parses successfully but the
manifest path it names does not exist, the manifest asset store is cleared
of all previously loaded assets, the application transitions to Broken,
and `OnAssetReload` returns false. -/
theorem onAssetReload_missing_config_clears_and_breaks (env : Env)
    (st : DState) (path : String)
    (h : env.fileExists path = false ∨
      ((ReadInSettingsFile env st.settings st.store st.name path).success = true ∧
       env.fileExists
         (ReadInSettingsFile env st.settings st.store st.name path).settings.manifestPath
         = false)) :
    (OnAssetReload env st path).success = false ∧
    (OnAssetReload env st path).state.store = [] ∧
    (OnAssetReload env st path).state.game.runState = RunState.Broken := by
  rcases h with h | ⟨hs, hm⟩
  · have hr : ReadInSettingsFile env st.settings st.store st.name path =
        { success := false, settings := st.settings, store := [], name := st.name } := by
      unfold ReadInSettingsFile
      rw [h]
      simp
    simp [OnAssetReload, hr, Game.Break]
  · simp [OnAssetReload, hs, hm, Game.Break]

/-- Witness for C1 at a concrete input: with every file missing, the
reload fails, the store is cleared and the game is broken. -/
theorem onAssetReload_missing_config_witness :
    (OnAssetReload envMissing dInit "settings.lua").success = false ∧
    (OnAssetReload envMissing dInit "settings.lua").state.store = [] ∧
    (OnAssetReload envMissing dInit "settings.lua").state.game.runState = RunState.Broken :=
  onAssetReload_missing_config_clears_and_breaks envMissing dInit "settings.lua"
    (Or.inl (by decide))

/-- C3: For every settings file that exists on disk but fails to parse,
`ReadInSettingsFile` returns false and leaves every settings field, the
manifest asset store and the name at their previous values: parse failure
is a single boolean outcome with no partial assignment. -/
theorem readInSettingsFile_parse_failure_no_partial (env : Env) (s : Settings)
    (store : List String) (mName path : String)
    (hex : env.fileExists path = true) (hp : env.parse path = none) :
    ReadInSettingsFile env s store mName path =
      { success := false, settings := s, store := store, name := mName } := by
  unfold ReadInSettingsFile
  rw [hex, hp]
  simp

/-- Witness for C3 at a concrete input. -/
theorem readInSettingsFile_parse_failure_witness :
    ReadInSettingsFile envParseFail Settings.init ["a.png"] "CGGameLoop" "settings.lua" =
      { success := false, settings := Settings.init, store := ["a.png"],
        name := "CGGameLoop" } :=
  readInSettingsFile_parse_failure_no_partial envParseFail Settings.init ["a.png"]
    "CGGameLoop" "settings.lua" rfl rfl

/-- C5: After every successful `ReadInSettingsFile`, the display
dimensions are at least the surface dimensions, and the clamp never
changes the surface dimensions themselves. -/
theorem readInSettingsFile_display_ge_surface :
    (∀ env s store mName path,
      (ReadInSettingsFile env s store mName path).success = true →
        (ReadInSettingsFile env s store mName path).settings.width ≤
          (ReadInSettingsFile env s store mName path).settings.displayWidth ∧
        (ReadInSettingsFile env s store mName path).settings.height ≤
          (ReadInSettingsFile env s store mName path).settings.displayHeight) ∧
    (∀ s, (clampDisplay s).width = s.width ∧ (clampDisplay s).height = s.height) := by
  constructor
  · intro env s store mName path
    unfold ReadInSettingsFile
    dsimp only
    split
    · split
      · intro h
        simp at h
      · intro _
        exact clampDisplay_bounds _
    · intro h
      simp at h
  · exact fun s => ⟨clampDisplay_width s, clampDisplay_height s⟩

/-- Witness for C5 at a concrete input: an empty settings document is read
successfully and the invariant holds on the result. -/
theorem readInSettingsFile_display_ge_surface_witness :
    (ReadInSettingsFile envQuiet Settings.init [] "CGGameLoop" "settings.lua").success
      = true ∧
    ((ReadInSettingsFile envQuiet Settings.init [] "CGGameLoop" "settings.lua").settings.width ≤
       (ReadInSettingsFile envQuiet Settings.init [] "CGGameLoop" "settings.lua").settings.displayWidth ∧
     (ReadInSettingsFile envQuiet Settings.init [] "CGGameLoop" "settings.lua").settings.height ≤
       (ReadInSettingsFile envQuiet Settings.init [] "CGGameLoop" "settings.lua").settings.displayHeight) :=
  ⟨by decide,
   readInSettingsFile_display_ge_surface.1 envQuiet Settings.init [] "CGGameLoop"
     "settings.lua" (by decide)⟩

/-- C6: The `manifest` settings key has no default and is required: for
every settings document that parses successfully but omits the `manifest`
key, the resulting manifest path is the empty string (no usable fallback
file, since the empty path never exists), so the manifest-existence check
of the reload fails, clearing the store and breaking the game. -/
theorem manifest_key_required (env : Env) (st : DState) (path : String)
    (doc : LuaDoc)
    (hex : env.fileExists path = true)
    (hp : env.parse path = some doc)
    (hm : doc.strings.lookup "manifest" = none)
    (hempty : env.fileExists "" = false) :
    (ReadInSettingsFile env st.settings st.store st.name path).settings.manifestPath = "" ∧
    (OnAssetReload env st path).success = false ∧
    (OnAssetReload env st path).state.store = [] ∧
    (OnAssetReload env st path).state.game.runState = RunState.Broken := by
  have hmp :
      (ReadInSettingsFile env st.settings st.store st.name path).settings.manifestPath
        = "" := by
    unfold ReadInSettingsFile
    rw [hex, hp]
    simp [clampDisplay_manifestPath, LuaDoc.GetString, hm]
  have hsucc :
      (ReadInSettingsFile env st.settings st.store st.name path).success = true := by
    unfold ReadInSettingsFile
    rw [hex, hp]
    simp
  have hm2 : env.fileExists
      (ReadInSettingsFile env st.settings st.store st.name path).settings.manifestPath
      = false := by
    rw [hmp]
    exact hempty
  exact ⟨hmp, by simp [OnAssetReload, hsucc, hm2, Game.Break]⟩

/-- Witness for C6 at a concrete input: an empty settings document over a
filesystem where every path but the empty one exists. -/
theorem manifest_key_required_witness :
    (ReadInSettingsFile envNoEmptyPath dInit.settings dInit.store dInit.name
        "settings.lua").settings.manifestPath = "" ∧
    (OnAssetReload envNoEmptyPath dInit "settings.lua").success = false ∧
    (OnAssetReload envNoEmptyPath dInit "settings.lua").state.store = [] ∧
    (OnAssetReload envNoEmptyPath dInit "settings.lua").state.game.runState
      = RunState.Broken :=
  manifest_key_required envNoEmptyPath dInit "settings.lua" docEmpty
    (by decide) rfl rfl (by decide)

/-- C7: For every settings document that sets `width=800` and `height=480`
and omits `display_width` and `display_height`, a successful
`ReadInSettingsFile` yields display dimensions 800×480: an omitted display
dimension defaults to the newly read surface dimension, not to the
previous display value. -/
theorem display_defaults_to_new_surface (env : Env) (s : Settings)
    (store : List String) (mName path : String) (doc : LuaDoc)
    (hex : env.fileExists path = true)
    (hp : env.parse path = some doc)
    (hw : doc.ints.lookup "width" = some 800)
    (hh : doc.ints.lookup "height" = some 480)
    (hdw : doc.ints.lookup "display_width" = none)
    (hdh : doc.ints.lookup "display_height" = none) :
    (ReadInSettingsFile env s store mName path).success = true ∧
    (ReadInSettingsFile env s store mName path).settings.displayWidth = 800 ∧
    (ReadInSettingsFile env s store mName path).settings.displayHeight = 480 := by
  unfold ReadInSettingsFile
  rw [hex, hp]
  simp [LuaDoc.GetInt, hw, hh, hdw, hdh, clampDisplay]

/-- Witness for C7 at a concrete input: previous display dimensions
640×360 are replaced by 800×480. -/
theorem display_defaults_to_new_surface_witness :
    (ReadInSettingsFile envWH Settings.init [] "CGGameLoop" "settings.lua").success
      = true ∧
    (ReadInSettingsFile envWH Settings.init [] "CGGameLoop"
        "settings.lua").settings.displayWidth = 800 ∧
    (ReadInSettingsFile envWH Settings.init [] "CGGameLoop"
        "settings.lua").settings.displayHeight = 480 :=
  display_defaults_to_new_surface envWH Settings.init [] "CGGameLoop" "settings.lua"
    docWH (by decide) rfl rfl rfl rfl rfl

/-- C8: The dimension clamp is idempotent: applying the
raise-display-to-at-least-surface clamp twice yields the same settings as
applying it once. -/
theorem clampDisplay_idempotent (s : Settings) :
    clampDisplay (clampDisplay s) = clampDisplay s := by
  cases s
  simp only [clampDisplay]
  split_ifs <;> simp_all

/-- C9 counterexample: the claim "OnChange is invoked exactly once when
the reload succeeds and the window size changed, and is not invoked
otherwise" is false on the code. At this concrete input the reload fails
(the asset store's reload fails) and the window size is unchanged, yet
OnChange was invoked once. -/
theorem onchange_fired_despite_failure :
    (OnAssetReload envStoreFail dInit "settings.lua").success = false ∧
    (OnAssetReload envStoreFail dInit "settings.lua").state.settings.width
      = dInit.settings.width ∧
    (OnAssetReload envStoreFail dInit "settings.lua").state.settings.height
      = dInit.settings.height ∧
    (OnAssetReload envStoreFail dInit "settings.lua").onChangeCalls.length = 1 := by
  decide

/-- C9 (amended): during each reload, the registered screen-change
listener's OnChange is invoked exactly once — with the new surface
dimensions — precisely when the settings read succeeds and the manifest
path exists, regardless of whether the window size changed and regardless
of whether the subsequent asset-store reload succeeds; it is not invoked
otherwise. -/
theorem onchange_calls_spec (env : Env) (st : DState) (path : String) :
    (OnAssetReload env st path).onChangeCalls =
      if st.hasScreenChangeListener = true ∧
         (ReadInSettingsFile env st.settings st.store st.name path).success = true ∧
         env.fileExists
           (ReadInSettingsFile env st.settings st.store st.name path).settings.manifestPath
           = true
      then [((ReadInSettingsFile env st.settings st.store st.name path).settings.width,
             (ReadInSettingsFile env st.settings st.store st.name path).settings.height)]
      else [] := by
  unfold OnAssetReload
  dsimp only
  cases hs : (ReadInSettingsFile env st.settings st.store st.name path).success
  · simp [hs]
  · cases hm : env.fileExists
        (ReadInSettingsFile env st.settings st.store st.name path).settings.manifestPath
    · simp [hs, hm]
    · cases hl : st.hasScreenChangeListener <;>
        cases hok : (env.storeReload
          (ReadInSettingsFile env st.settings st.store st.name path).settings.manifestPath
          (ReadInSettingsFile env st.settings st.store st.name path).store).1 <;>
        simp [hs, hm, hl, hok]

/-- C2 counterexample: the claim "Reset is performed iff this is the first
successful cascade ever (isReady false) or reloadCount > 0" is false on
the code. At this concrete input the cascade succeeds with isReady true
and reloadCount 0 — the claim says no reset — yet Reset is called,
because the game is not running (it was Broken). -/
theorem reset_despite_ready_and_zero_count :
    (ForceReload envQuiet frInit).success = true ∧
    (ForceReload envQuiet frInit).gameAtCheck.isReady = true ∧
    (ForceReload envQuiet frInit).gameAtCheck.reloadCount = 0 ∧
    (ForceReload envQuiet frInit).resetCalled = true := by
  decide

/-- C2 (amended): for every invocation of ForceReload whose
settings+manifest cascade succeeds, Game::Reset is performed if and only
if, at the post-cascade check, isReady is false, or reloadCount > 0, or
the game is not running; in every other successful case no reset
occurs. -/
theorem forceReload_reset_condition (env : Env) (st : FRState)
    (h : (ForceReload env st).success = true) :
    ((ForceReload env st).resetCalled = true ↔
      ((ForceReload env st).gameAtCheck.isReady = false ∨
       0 < (ForceReload env st).gameAtCheck.reloadCount ∨
       (ForceReload env st).gameAtCheck.runState ≠ RunState.Running)) := by
  obtain ⟨stX, b, c, hF⟩ := ForceReload_shape env st
  rw [hF] at h ⊢
  rw [finishReload_success] at h
  subst h
  rw [finishReload_resetCalled, finishReload_gameAtCheck]
  simp [Game.GetReloadCount, Game.IsRunning, Game.IsReady]
  tauto

/-- Witness for the amended C2 at a concrete input: the successful cascade
over a broken-but-ready game with reloadCount 0 resets because the game is
not running. -/
theorem forceReload_reset_condition_witness :
    (ForceReload envQuiet frInit).success = true ∧
    ((ForceReload envQuiet frInit).resetCalled = true ↔
      ((ForceReload envQuiet frInit).gameAtCheck.isReady = false ∨
       0 < (ForceReload envQuiet frInit).gameAtCheck.reloadCount ∨
       (ForceReload envQuiet frInit).gameAtCheck.runState ≠ RunState.Running)) :=
  ⟨by decide, forceReload_reset_condition envQuiet frInit (by decide)⟩

/-- C4: in every invocation of ForceReload where the settings file is out
of date but its reload fails, SetTimeLastModified is not called: the
settings asset (in particular its stored timestamp) is left intact, so the
resource is detected as stale again on the next check. -/
theorem failed_reload_keeps_timestamp (env : Env) (st : FRState)
    (hood : IsOutOfDate env st.settingsFile = true)
    (hfail : (OnAssetReload env
        { st.d with game := st.d.game.ResetReloadCount }
        st.settingsFile.path).success = false) :
    (ForceReload env st).st.settingsFile = st.settingsFile ∧
    IsOutOfDate env (ForceReload env st).st.settingsFile = true := by
  have hF : ForceReload env st =
      finishReload
        { d := (OnAssetReload env
            { st.d with game := st.d.game.ResetReloadCount }
            st.settingsFile.path).state
          settingsFile := st.settingsFile }
        false
        (OnAssetReload env
          { st.d with game := st.d.game.ResetReloadCount }
          st.settingsFile.path).onChangeCalls := by
    unfold ForceReload
    dsimp only
    rw [hood, hfail]
    simp
  rw [hF, finishReload_settingsFile]
  exact ⟨rfl, hood⟩

/-- Witness for C4 at a concrete input: the settings file is newer on disk
than the stored timestamp, the asset store's reload fails, and the stored
timestamp survives and is still stale. -/
theorem failed_reload_keeps_timestamp_witness :
    (ForceReload envStoreFail frInit).st.settingsFile = frInit.settingsFile ∧
    IsOutOfDate envStoreFail (ForceReload envStoreFail frInit).st.settingsFile
      = true :=
  failed_reload_keeps_timestamp envStoreFail frInit (by decide) (by decide)

/-- C10: after the Dinodeck constructor completes, exactly five asset
categories are registered: "scripts" owned by the Game and required, while
"textures" (TextureManager), "fonts" (the manifest asset store itself),
and "sounds" and "soundstreams" (both the same DDAudio instance) are all
Optional — so among the registered categories only a "scripts" failure is
non-optional. -/
theorem constructor_registers_five_categories :
    ∃ reg, constructorRegistry = some reg ∧
      reg.length = 5 ∧
      reg.lookup "scripts" = some (Owner.game, Optionality.Required) ∧
      reg.lookup "textures" = some (Owner.textureManager, Optionality.Optional) ∧
      reg.lookup "fonts" = some (Owner.manifestAssetStore, Optionality.Optional) ∧
      reg.lookup "sounds" = some (Owner.ddAudio, Optionality.Optional) ∧
      reg.lookup "soundstreams" = some (Owner.ddAudio, Optionality.Optional) ∧
      ∀ e ∈ reg, e.2.2 = Optionality.Required → e.1 = "scripts" := by
  refine ⟨_, rfl, ?_⟩
  decide

end Dinodeck
